import Mathlib

/-!
Shallow embedding of `src/head_pose_estimation.cpp` (gazr head-pose estimator).

Modelling conventions:
* C++ `float`/`double` values are embedded as exact rationals (`ℚ`); numeric
  literals of the source are read as rationals.
* The OpenCV and libm primitives the source calls (`cv::solvePnP`,
  the inverse direction of `cv::Rodrigues`, `sin`, `cos`, `sqrt`) are external
  library code, not code of this repository; they are abstracted as the fields
  of a `Prims` record.  The forward Rodrigues conversion and the pinhole
  projection used by the renderer are given concretely by their standard
  formulas, on top of those primitives.
* C++ functions that mutate a `cv::Mat&` are embedded by explicit state
  passing (`Mat → … Mat`); `const` parameters are plain values.
* Unchecked `std::vector::operator[]` access out of bounds is undefined
  behavior in C++; it is marked by the error value `ErrKind.outOfBoundsUB`
  propagated through `Except`.  The constructor `ErrKind.indexError`
  represents a distinctly signalled index error; the embedded code never
  produces it, because the source performs no bounds check.
-/

namespace Gazr

/-- 2-D point with rational coordinates (embeds `cv::Point2f`). -/
@[ext]
structure Point2 where
  x : ℚ
  y : ℚ
deriving DecidableEq

instance : Add Point2 := ⟨fun a b => ⟨a.x + b.x, a.y + b.y⟩⟩

instance : Sub Point2 := ⟨fun a b => ⟨a.x - b.x, a.y - b.y⟩⟩

/-- `cv::Point2f * scalar` (used for the `* 0.5` midpoint and `d1 * t1`). -/
instance : HMul Point2 ℚ Point2 := ⟨fun a t => ⟨a.x * t, a.y * t⟩⟩

/-- 3-D point with rational coordinates (embeds `cv::Point3f`). -/
structure Point3 where
  x : ℚ
  y : ℚ
  z : ℚ
deriving DecidableEq

/-- A 3-vector (embeds a 3×1 `cv::Mat` such as `rvec` / `tvec`). -/
structure Vec3 where
  x : ℚ
  y : ℚ
  z : ℚ
deriving DecidableEq

/-- 3×3 matrix over ℚ (embeds `cv::Matx33f` / `cv::Matx33d`). -/
abbrev Mat3 := Matrix (Fin 3) (Fin 3) ℚ

/-- 4×4 matrix over ℚ (embeds `head_pose = cv::Matx44d`). -/
abbrev Mat4 := Matrix (Fin 4) (Fin 4) ℚ

/-- A dlib `full_object_detection`: 68 landmark points with integer
(`long`) coordinates, accessed through `part(i)`. -/
abbrev Shape := Fin 68 → ℤ × ℤ

/-- A dlib face bounding rectangle (contents immaterial to the claims). -/
structure Rect where
  left : ℤ
  top : ℤ
  right : ℤ
  bottom : ℤ
deriving DecidableEq

/-- An input image: `cols`/`rows` are its dimensions, `data` abstracts the
pixel contents consumed by the external detector. -/
structure Image where
  cols : ℕ
  rows : ℕ
  data : ℕ
deriving DecidableEq

/-- A BGR color (embeds `cv::Scalar`). -/
structure Color where
  b : ℕ
  g : ℕ
  r : ℕ
deriving DecidableEq

/-- One drawing primitive recorded on an output image: `cv::line` or
`cv::putText` with its position, color and (for lines) thickness. -/
inductive DrawOp where
  | line (a b : Point2) (color : Color) (thickness : ℕ)
  | text (s : String) (pos : Point2) (color : Color)
deriving DecidableEq

/-- A `cv::Mat` used as a drawing target: abstract pixel `content` plus the
ordered list of drawing operations applied to it.  `cv::Mat` values are
embedded by value; `clone` is the (deep) copy. -/
structure Mat where
  content : ℕ
  ops : List DrawOp
deriving DecidableEq

/-- `cv::Mat::clone()`: a newly allocated deep copy of the image. -/
def Mat.clone (m : Mat) : Mat := m

/-- Failure markers for the embedded code.  `outOfBoundsUB` marks an
unchecked `std::vector::operator[]` access out of bounds — undefined
behavior in C++, not a signalled error.  `indexError` represents a
distinctly signalled index error; the source never produces it. -/
inductive ErrKind where
  | indexError
  | outOfBoundsUB
deriving DecidableEq

/-- Modelled from the spec: the `FACIAL_FEATURE` enumeration of the missing
header `head_pose_estimation.hpp` — symbolic names for positions in the
68-point landmark convention of the external landmark model. -/
inductive FACIAL_FEATURE where
  | SELLION
  | RIGHT_EYE
  | LEFT_EYE
  | RIGHT_SIDE
  | LEFT_SIDE
  | MENTON
  | NOSE
  | MOUTH_CENTER_TOP
  | MOUTH_CENTER_BOTTOM
deriving DecidableEq

/-- Modelled from the spec: the numeric value of each `FACIAL_FEATURE`
enumerator (the spec names SELLION=30, RIGHT_EYE=36, LEFT_EYE=45, MENTON=8,
NOSE=33, MOUTH_CENTER_TOP=62, MOUTH_CENTER_BOTTOM=66; the two ear/jaw-side
points are the jaw endpoints 0 and 16 of the same 68-point convention). -/
def featureIndex : FACIAL_FEATURE → Fin 68
  | .SELLION => 30
  | .RIGHT_EYE => 36
  | .LEFT_EYE => 45
  | .RIGHT_SIDE => 0
  | .LEFT_SIDE => 16
  | .MENTON => 8
  | .NOSE => 33
  | .MOUTH_CENTER_TOP => 62
  | .MOUTH_CENTER_BOTTOM => 66

/-- Modelled from the spec: fixed 3-D anthropometric reference point
(millimeters) of the missing header; the sellion is the model origin.  The
spec fixes the existence, order and constancy of these points but not their
numeric values; the values below are immaterial to every claim. -/
def P3D_SELLION : Point3 := ⟨0, 0, 0⟩

/-- Modelled from the spec: right-eye reference point (millimeters). -/
def P3D_RIGHT_EYE : Point3 := ⟨-20, -65, -5⟩

/-- Modelled from the spec: left-eye reference point (millimeters). -/
def P3D_LEFT_EYE : Point3 := ⟨-20, 65, -5⟩

/-- Modelled from the spec: right-ear reference point (millimeters). -/
def P3D_RIGHT_EAR : Point3 := ⟨-100, -77, -6⟩

/-- Modelled from the spec: left-ear reference point (millimeters). -/
def P3D_LEFT_EAR : Point3 := ⟨-100, 77, -6⟩

/-- Modelled from the spec: menton (chin) reference point (millimeters). -/
def P3D_MENTON : Point3 := ⟨0, 0, -133⟩

/-- Modelled from the spec: nose-tip reference point (millimeters). -/
def P3D_NOSE : Point3 := ⟨21, 0, -48⟩

/-- Modelled from the spec: stomion (mouth-center) reference point
(millimeters). -/
def P3D_STOMMION : Point3 := ⟨10, 0, -75⟩

/-- The arguments the source hands to `cv::solvePnP`: the 3-D/2-D
correspondences, the camera intrinsic matrix, the `useExtrinsicGuess` flag
and the initial rotation / translation vectors (`rvec`, `tvec`) that seed
the iterative solve.  (`distCoeffs` is `noArray()` — no lens distortion —
and the flag is the ITERATIVE method; both are fixed constants.) -/
structure PnPArgs where
  objectPoints : List Point3
  imagePoints : List Point2
  cameraMatrix : Mat3
  useExtrinsicGuess : Bool
  rvec0 : Vec3
  tvec0 : Vec3

/-- The external primitives the source calls: libm trigonometry and square
root, OpenCV's iterative PnP solver (returning the refined `rvec`,`tvec`)
and the inverse Rodrigues conversion (rotation matrix → rotation vector)
used by the renderer.  These are external library code, abstracted. -/
structure Prims where
  sinQ : ℚ → ℚ
  cosQ : ℚ → ℚ
  sqrtQ : ℚ → ℚ
  solvePnP : PnPArgs → Vec3 × Vec3
  rodriguesInv : Mat3 → Vec3

/-- Rodrigues' formula (axis-angle → rotation matrix), the conversion
`cv::Rodrigues(rvec, rotation)` performs: with θ the norm of `r` and
`u = r/θ`, `R = cos θ · I + (1−cos θ) u uᵀ + sin θ [u]ₓ`; the identity when
θ = 0.  Trigonometry and the square root come from the primitives. -/
def rodrigues (pr : Prims) (r : Vec3) : Mat3 :=
  let theta := pr.sqrtQ (r.x ^ 2 + r.y ^ 2 + r.z ^ 2)
  if theta = 0 then 1
  else
    let c := pr.cosQ theta
    let s := pr.sinQ theta
    let ux := r.x / theta
    let uy := r.y / theta
    let uz := r.z / theta
    Matrix.of ![
      ![c + ux * ux * (1 - c), ux * uy * (1 - c) - uz * s, ux * uz * (1 - c) + uy * s],
      ![uy * ux * (1 - c) + uz * s, c + uy * uy * (1 - c), uy * uz * (1 - c) - ux * s],
      ![uz * ux * (1 - c) - uy * s, uz * uy * (1 - c) + ux * s, c + uz * uz * (1 - c)]]

/-- The estimator's state: camera parameters plus the face/landmark state
replaced by each `update` call (members of class `HeadPoseEstimation`). -/
structure HeadPoseEstimation where
  focalLength : ℚ
  opticalCenterX : ℚ
  opticalCenterY : ℚ
  faces : List Rect
  shapes : List Shape

/-- The constructor `HeadPoseEstimation(face_detection_model, focalLength)`:
stores the focal length and the `-1` sentinels for the optical center; the
model loading it also performs is external. -/
def initState (focalLength : ℚ) : HeadPoseEstimation :=
  { focalLength := focalLength
    opticalCenterX := -1
    opticalCenterY := -1
    faces := []
    shapes := [] }

/-- `HeadPoseEstimation::update(image)`.  The external face detector and
landmark predictor are passed as functions `det` and `pm`.  On the first
call (optical-center sentinel still `-1`) the optical center is set to the
image center, with C++ integer division; `faces` and `shapes` are fully
replaced; the returned value is the per-face list of the 68 landmark
points. -/
def update (det : Image → List Rect) (pm : Image → Rect → Shape)
    (st : HeadPoseEstimation) (img : Image) :
    HeadPoseEstimation × List (List (ℤ × ℤ)) :=
  let st1 :=
    if st.opticalCenterX = -1 then
      { st with
        opticalCenterX := ((img.cols / 2 : ℕ) : ℚ)
        opticalCenterY := ((img.rows / 2 : ℕ) : ℚ) }
    else st
  let faces := det img
  let shapes := faces.map (pm img)
  let all_features := shapes.map fun d => (List.finRange 68).map fun i => d i
  ({ st1 with faces := faces, shapes := shapes }, all_features)

/-- `HeadPoseEstimation::coordsOf(face_idx, feature)`:
`toCv(shapes[face_idx].part(feature))`.  The `shapes[face_idx]` vector
access is unchecked; out of range it is undefined behavior, marked
`outOfBoundsUB`. -/
def coordsOf (st : HeadPoseEstimation) (face_idx : ℕ) (feature : FACIAL_FEATURE) :
    Except ErrKind Point2 :=
  match st.shapes.get? face_idx with
  | some s => .ok ⟨((s (featureIndex feature)).1 : ℚ), ((s (featureIndex feature)).2 : ℚ)⟩
  | none => .error .outOfBoundsUB

/-- The camera intrinsic matrix `pose` builds: focal length on both axes,
optical center as principal point, zero skew, bottom-right 1. -/
def camMatrix (st : HeadPoseEstimation) : Mat3 :=
  Matrix.of ![
    ![st.focalLength, 0, st.opticalCenterX],
    ![0, st.focalLength, st.opticalCenterY],
    ![0, 0, 1]]

/-- The first half of `HeadPoseEstimation::pose(face_idx)`: the arguments it
assembles for `cv::solvePnP` — the 8 reference points, the 8 detected points
(the stomion being the `* 0.5` midpoint of the two mouth-center landmarks),
the intrinsics, and the fixed initial guess `tvec = (0,0,1000)`,
`rvec = (1.2, 1.2, -1.2)` rebuilt on every call. -/
def pnpInput (st : HeadPoseEstimation) (face_idx : ℕ) : Except ErrKind PnPArgs := do
  let sellion ← coordsOf st face_idx .SELLION
  let rightEye ← coordsOf st face_idx .RIGHT_EYE
  let leftEye ← coordsOf st face_idx .LEFT_EYE
  let rightSide ← coordsOf st face_idx .RIGHT_SIDE
  let leftSide ← coordsOf st face_idx .LEFT_SIDE
  let menton ← coordsOf st face_idx .MENTON
  let nose ← coordsOf st face_idx .NOSE
  let mouthTop ← coordsOf st face_idx .MOUTH_CENTER_TOP
  let mouthBottom ← coordsOf st face_idx .MOUTH_CENTER_BOTTOM
  let stomion := (mouthTop + mouthBottom) * (1 / 2 : ℚ)
  pure
    { objectPoints := [P3D_SELLION, P3D_RIGHT_EYE, P3D_LEFT_EYE, P3D_RIGHT_EAR,
        P3D_LEFT_EAR, P3D_MENTON, P3D_NOSE, P3D_STOMMION]
      imagePoints := [sellion, rightEye, leftEye, rightSide, leftSide, menton,
        nose, stomion]
      cameraMatrix := camMatrix st
      useExtrinsicGuess := true
      rvec0 := ⟨6 / 5, 6 / 5, -(6 / 5)⟩
      tvec0 := ⟨0, 0, 1000⟩ }

/-- `HeadPoseEstimation::pose(face_idx)`: solve PnP from `pnpInput`, convert
the solved rotation vector with Rodrigues' formula, and compose the 4×4
matrix — rotation block, translation column divided by 1000 (millimeters →
meters), bottom row `[0,0,0,1]`. -/
def pose (st : HeadPoseEstimation) (face_idx : ℕ) (pr : Prims) :
    Except ErrKind Mat4 := do
  let args ← pnpInput st face_idx
  let rt := pr.solvePnP args
  let rotM := rodrigues pr rt.1
  pure (Matrix.of ![
    ![rotM 0 0, rotM 0 1, rotM 0 2, rt.2.x / 1000],
    ![rotM 1 0, rotM 1 1, rotM 1 2, rt.2.y / 1000],
    ![rotM 2 0, rotM 2 1, rotM 2 2, rt.2.z / 1000],
    ![0, 0, 0, 1]])

/-- `HeadPoseEstimation::poses()`: `pose(i)` for each stored face index `i`
in order (`for i = 0 .. faces.size()-1`). -/
def poses (st : HeadPoseEstimation) (pr : Prims) : List (Except ErrKind Mat4) :=
  (List.range st.faces.length).map fun i => pose st i pr

/-- `HeadPoseEstimation::intersection(o1, p1, o2, p2, r)`: the C++ function
returns a `bool` and writes the intersection point into the reference
parameter `r` only on the success path; it is embedded as taking the prior
value of `r` and returning the pair (return value, final value of `r`). -/
def intersection (o1 p1 o2 p2 r : Point2) : Bool × Point2 :=
  let x := o2 - o1
  let d1 := p1 - o1
  let d2 := p2 - o2
  let cross := d1.x * d2.y - d1.y * d2.x
  if |cross| < 1 / 100000000 then (false, r)
  else
    let t1 := (x.x * d2.y - x.y * d2.x) / cross
    (true, o1 + d1 * t1)

/-- One point of `cv::projectPoints(axes, rvec, tvec, projection, …)`: the
standard pinhole projection `K (R X + t)` with perspective division, `R`
the Rodrigues matrix of `rvec` (division by a zero depth follows the ℚ
convention; the claims do not depend on that case). -/
def projectPoint (pr : Prims) (rvec tvec : Vec3) (K : Mat3) (X : Point3) : Point2 :=
  let R := rodrigues pr rvec
  let cx := R 0 0 * X.x + R 0 1 * X.y + R 0 2 * X.z + tvec.x
  let cy := R 1 0 * X.x + R 1 1 * X.y + R 1 2 * X.z + tvec.y
  let cz := R 2 0 * X.x + R 2 1 * X.y + R 2 2 * X.z + tvec.z
  ⟨K 0 0 * (cx / cz) + K 0 2, K 1 1 * (cy / cz) + K 1 2⟩

/-- C++ `int(d)` for a floating value: truncation toward zero. -/
def truncToZero (q : ℚ) : ℤ := if 0 ≤ q then q.floor else q.ceil

/-- The translation label `drawPose` renders:
`"(" + to_string(int(p(0,3)*100)) + "cm, " + … + "cm)"`. -/
def poseLabel (p : Mat4) : String :=
  "(" ++ toString (truncToZero (p 0 3 * 100)) ++ "cm, "
      ++ toString (truncToZero (p 1 3 * 100)) ++ "cm, "
      ++ toString (truncToZero (p 2 3 * 100)) ++ "cm)"

/-- The top-left 3×3 block of a 4×4 pose matrix
(`Mat(pose)(Range(0,3), Range(0,3))`). -/
def rotBlock (p : Mat4) : Mat3 :=
  Matrix.of fun i j => p ⟨i.val, by omega⟩ ⟨j.val, by omega⟩

/-- The drawing operations `drawPose` appends for one pose: the three
projected axis segments (in source order and with the source's colors) and
the translation text placed at `sellionPos`. -/
def axisTextOps (st : HeadPoseEstimation) (pr : Prims) (p : Mat4)
    (sellionPos : Point2) : List DrawOp :=
  let rvec := pr.rodriguesInv (rotBlock p)
  let tvec : Vec3 := ⟨p 0 3, p 1 3, p 2 3⟩
  let projection := camMatrix st
  let a0 := projectPoint pr rvec tvec projection ⟨0, 0, 0⟩
  let a1 := projectPoint pr rvec tvec projection ⟨50, 0, 0⟩
  let a2 := projectPoint pr rvec tvec projection ⟨0, 50, 0⟩
  let a3 := projectPoint pr rvec tvec projection ⟨0, 0, 50⟩
  [DrawOp.line a0 a3 ⟨255, 0, 0⟩ 2,
   DrawOp.line a0 a2 ⟨0, 255, 0⟩ 2,
   DrawOp.line a0 a1 ⟨0, 0, 255⟩ 2,
   DrawOp.text (poseLabel p) sellionPos ⟨0, 0, 255⟩]

/-- `HeadPoseEstimation::drawPose(pose, face_idx, result)`: extracts the
rotation block and translation column, projects the axis triad, draws the
three axis lines, and renders the translation label at
`coordsOf(face_idx, SELLION)` — a lookup into the estimator's *stored*
shapes, unchecked when `face_idx` is out of range. -/
def drawPose (st : HeadPoseEstimation) (pr : Prims) (p : Mat4) (face_idx : ℕ)
    (m : Mat) : Except ErrKind Mat := do
  let sellionPos ← coordsOf st face_idx .SELLION
  pure { m with ops := m.ops ++ axisTextOps st pr p sellionPos }

/-- The index pairs `(i, i-1)` for `i = a .. b` used by `drawFeatures`. -/
def consecSegs (a b : ℕ) : List (ℕ × ℕ) :=
  (List.range' a (b + 1 - a)).map fun i => (i, i - 1)

/-- Every `cv::line(result, f[i], f[j], …)` pair of `drawFeatures`, in
source order: jaw, nose bridge, both brows, nose base (closing 30–35), both
eyes (closed), outer lip (closed), inner lip (closed). -/
def featureSegments : List (ℕ × ℕ) :=
  consecSegs 1 16 ++ consecSegs 28 30 ++ consecSegs 18 21 ++ consecSegs 23 26 ++
    consecSegs 31 35 ++ [(30, 35)] ++ consecSegs 37 41 ++ [(36, 41)] ++
    consecSegs 43 47 ++ [(42, 47)] ++ consecSegs 49 59 ++ [(48, 59)] ++
    consecSegs 61 67 ++ [(60, 67)]

/-- Unchecked `std::vector::operator[]` on a feature-point list: undefined
behavior out of range, marked `outOfBoundsUB`. -/
def getPt (l : List (ℤ × ℤ)) (n : ℕ) : Except ErrKind (ℤ × ℤ) :=
  match l.get? n with
  | some p => .ok p
  | none => .error .outOfBoundsUB

/-- The polyline color of `drawFeatures` (`Scalar(0,128,128)`). -/
def lineColor : Color := ⟨0, 128, 128⟩

/-- The line operations emitted for the listed index pairs of one face's
feature points, in order (one `cv::line(result, f[i], f[j], line_color, 2)`
call per pair). -/
def faceSegOps (f : List (ℤ × ℤ)) : List (ℕ × ℕ) → Except ErrKind (List DrawOp)
  | [] => pure []
  | sg :: rest => do
    let pa ← getPt f sg.1
    let pb ← getPt f sg.2
    let ops ← faceSegOps f rest
    pure (DrawOp.line ⟨(pa.1 : ℚ), (pa.2 : ℚ)⟩ ⟨(pb.1 : ℚ), (pb.2 : ℚ)⟩
      lineColor 2 :: ops)

/-- The line operations `drawFeatures` emits for a single face's feature
points. -/
def drawFaceOps (f : List (ℤ × ℤ)) : Except ErrKind (List DrawOp) :=
  faceSegOps f featureSegments

/-- `HeadPoseEstimation::drawFeatures(detected_features, result)`: appends
the connectivity polylines of every face in order onto `result`. -/
def drawFeatures (feats : List (List (ℤ × ℤ))) (m : Mat) : Except ErrKind Mat :=
  feats.foldlM (fun acc f => do
    let ops ← drawFaceOps f
    pure { acc with ops := acc.ops ++ ops }) m

/-- The per-pose loop of `drawDetections`: `drawPose(poses[i], i, result)`
for each listed pose, threaded through the drawing target. -/
def drawPoses (st : HeadPoseEstimation) (pr : Prims)
    (ps : List (ℕ × Mat4)) (m : Mat) : Except ErrKind Mat :=
  ps.foldlM (fun acc ip => drawPose st pr ip.2 ip.1 acc) m

/-- `HeadPoseEstimation::drawDetections(original_image, detected_features,
detected_poses)`: clones the base image, draws the feature polylines when
the feature list is non-empty, then draws every pose, and returns the
annotated clone. -/
def drawDetections (st : HeadPoseEstimation) (pr : Prims) (img : Mat)
    (feats : List (List (ℤ × ℤ))) (ps : List Mat4) : Except ErrKind Mat := do
  let result := img.clone
  let result ← if feats.isEmpty then pure result else drawFeatures feats result
  drawPoses st pr ps.enum result

/-! ### Concrete inputs used by witnesses and counterexamples -/

/-- A concrete landmark shape: `part(i) = (i, i+1)`. -/
def shape0 : Shape := fun i => ((i : ℤ), (i : ℤ) + 1)

/-- A concrete face rectangle. -/
def rect0 : Rect := ⟨0, 0, 10, 10⟩

/-- A concrete estimator state holding one detected face. -/
def st1 : HeadPoseEstimation :=
  { focalLength := 1000
    opticalCenterX := 320
    opticalCenterY := 240
    faces := [rect0]
    shapes := [shape0] }

/-- A concrete estimator state holding no detected face. -/
def emptySt : HeadPoseEstimation :=
  { focalLength := 1000
    opticalCenterX := 320
    opticalCenterY := 240
    faces := []
    shapes := [] }

/-- Concrete external primitives for witnesses. -/
def prims0 : Prims :=
  { sinQ := fun _ => 0
    cosQ := fun _ => 1
    sqrtQ := fun _ => 0
    solvePnP := fun _ => (⟨0, 0, 0⟩, ⟨0, 0, 1000⟩)
    rodriguesInv := fun _ => ⟨0, 0, 0⟩ }

/-- A concrete detector reporting no face. -/
def det0 : Image → List Rect := fun _ => []

/-- A concrete detector reporting one face. -/
def det1 : Image → List Rect := fun _ => [rect0]

/-- A concrete landmark predictor. -/
def pm0 : Image → Rect → Shape := fun _ _ => shape0

/-- A concrete 640×480 image. -/
def img0 : Image := ⟨640, 480, 0⟩

/-- A concrete 1000×700 image (different dimensions from `img0`). -/
def img2 : Image := ⟨1000, 700, 1⟩

/-- A concrete drawing target. -/
def mat0 : Mat := ⟨7, []⟩

/-- A concrete 4×4 pose matrix (the identity transform). -/
def m4one : Mat4 := 1

/-- The 2-D point stored for feature `f` of shape `s` (the value `coordsOf`
returns when the face index is in range). -/
def landmark (s : Shape) (f : FACIAL_FEATURE) : Point2 :=
  ⟨((s (featureIndex f)).1 : ℚ), ((s (featureIndex f)).2 : ℚ)⟩

/-! ### Supporting lemmas -/

@[simp] theorem Point2.add_x (a b : Point2) : (a + b).x = a.x + b.x := rfl

@[simp] theorem Point2.add_y (a b : Point2) : (a + b).y = a.y + b.y := rfl

@[simp] theorem Point2.sub_x (a b : Point2) : (a - b).x = a.x - b.x := rfl

@[simp] theorem Point2.sub_y (a b : Point2) : (a - b).y = a.y - b.y := rfl

@[simp] theorem Point2.smul_x (a : Point2) (t : ℚ) : (a * t).x = a.x * t := rfl

@[simp] theorem Point2.smul_y (a : Point2) (t : ℚ) : (a * t).y = a.y * t := rfl

theorem coordsOf_ok {st : HeadPoseEstimation} {i : ℕ} {s : Shape}
    (hs : st.shapes.get? i = some s) (f : FACIAL_FEATURE) :
    coordsOf st i f = .ok (landmark s f) := by
  rw [List.get?_eq_getElem?] at hs
  simp [coordsOf, hs, landmark]

theorem coordsOf_err {st : HeadPoseEstimation} {i : ℕ}
    (hs : st.shapes.get? i = none) (f : FACIAL_FEATURE) :
    coordsOf st i f = .error .outOfBoundsUB := by
  rw [List.get?_eq_getElem?] at hs
  simp [coordsOf, hs]

/-- Characterization of the solver input on a valid face index. -/
theorem pnpInput_ok {st : HeadPoseEstimation} {i : ℕ} {s : Shape}
    (hs : st.shapes.get? i = some s) :
    pnpInput st i = .ok
      { objectPoints := [P3D_SELLION, P3D_RIGHT_EYE, P3D_LEFT_EYE, P3D_RIGHT_EAR,
          P3D_LEFT_EAR, P3D_MENTON, P3D_NOSE, P3D_STOMMION]
        imagePoints := [landmark s .SELLION, landmark s .RIGHT_EYE,
          landmark s .LEFT_EYE, landmark s .RIGHT_SIDE, landmark s .LEFT_SIDE,
          landmark s .MENTON, landmark s .NOSE,
          (landmark s .MOUTH_CENTER_TOP + landmark s .MOUTH_CENTER_BOTTOM) * (1 / 2 : ℚ)]
        cameraMatrix := camMatrix st
        useExtrinsicGuess := true
        rvec0 := ⟨6 / 5, 6 / 5, -(6 / 5)⟩
        tvec0 := ⟨0, 0, 1000⟩ } := by
  simp [pnpInput, coordsOf_ok hs, Bind.bind, Except.bind, pure, Except.pure]

/-- On an out-of-range face index the very first landmark lookup is the
unchecked out-of-bounds access. -/
theorem pnpInput_err {st : HeadPoseEstimation} {i : ℕ}
    (hs : st.shapes.get? i = none) :
    pnpInput st i = .error .outOfBoundsUB := by
  simp [pnpInput, coordsOf_err hs, Bind.bind, Except.bind]

/-- `pose` on a successful solver input. -/
theorem pose_ok {st : HeadPoseEstimation} {i : ℕ} {args : PnPArgs} (pr : Prims)
    (hargs : pnpInput st i = .ok args) :
    pose st i pr = .ok (Matrix.of ![
      ![rodrigues pr (pr.solvePnP args).1 0 0, rodrigues pr (pr.solvePnP args).1 0 1,
        rodrigues pr (pr.solvePnP args).1 0 2, (pr.solvePnP args).2.x / 1000],
      ![rodrigues pr (pr.solvePnP args).1 1 0, rodrigues pr (pr.solvePnP args).1 1 1,
        rodrigues pr (pr.solvePnP args).1 1 2, (pr.solvePnP args).2.y / 1000],
      ![rodrigues pr (pr.solvePnP args).1 2 0, rodrigues pr (pr.solvePnP args).1 2 1,
        rodrigues pr (pr.solvePnP args).1 2 2, (pr.solvePnP args).2.z / 1000],
      ![0, 0, 0, 1]]) := by
  simp [pose, hargs, Bind.bind, Except.bind, pure, Except.pure]

theorem shapes_get?_of_lt {st : HeadPoseEstimation} {i : ℕ}
    (h : i < st.shapes.length) : ∃ s, st.shapes.get? i = some s := by
  rw [List.get?_eq_get h]
  exact ⟨_, rfl⟩

/-! ### Claim theorems -/

/-- C1: for every face index with stored landmarks, `pose(face_index)`
returns a 4×4 matrix whose top-left 3×3 block is the rotation matrix
obtained from the solved rotation vector via Rodrigues' formula, whose
rightmost column (rows 0–2) is the solved translation vector divided by
1000 (millimeters → meters), and whose bottom row is exactly
`[0, 0, 0, 1]`. -/
theorem pose_matrix_blocks (pr : Prims) (st : HeadPoseEstimation) (i : ℕ)
    (h : i < st.shapes.length) :
    ∃ args M, pnpInput st i = .ok args ∧ pose st i pr = .ok M ∧
      (∀ a b : Fin 3, M a.castSucc b.castSucc = rodrigues pr (pr.solvePnP args).1 a b) ∧
      M 0 3 = (pr.solvePnP args).2.x / 1000 ∧
      M 1 3 = (pr.solvePnP args).2.y / 1000 ∧
      M 2 3 = (pr.solvePnP args).2.z / 1000 ∧
      M 3 0 = 0 ∧ M 3 1 = 0 ∧ M 3 2 = 0 ∧ M 3 3 = 1 := by
  obtain ⟨s, hs⟩ := shapes_get?_of_lt h
  refine ⟨_, _, pnpInput_ok hs, pose_ok pr (pnpInput_ok hs), ?_, rfl, rfl, rfl,
    rfl, rfl, rfl, rfl⟩
  intro a b
  fin_cases a <;> fin_cases b <;> rfl

/-- C1 witness: the blocks theorem applied at a concrete state with one
stored face. -/
theorem pose_matrix_blocks_witness :
    ∃ args M, pnpInput st1 0 = .ok args ∧ pose st1 0 prims0 = .ok M ∧
      (∀ a b : Fin 3, M a.castSucc b.castSucc =
        rodrigues prims0 (prims0.solvePnP args).1 a b) ∧
      M 0 3 = (prims0.solvePnP args).2.x / 1000 ∧
      M 1 3 = (prims0.solvePnP args).2.y / 1000 ∧
      M 2 3 = (prims0.solvePnP args).2.z / 1000 ∧
      M 3 0 = 0 ∧ M 3 1 = 0 ∧ M 3 2 = 0 ∧ M 3 3 = 1 :=
  pose_matrix_blocks prims0 st1 0 (by decide)

/-- C2: the 2-D stomion point `pose` passes to the PnP solve (position 7 of
the detected-point list) is exactly the coordinate-wise average of the
MOUTH_CENTER_TOP and MOUTH_CENTER_BOTTOM landmarks of that face; when those
two landmarks are distinct, the stomion equals neither of them, so it is
not a directly detected landmark. -/
theorem stomion_is_mouth_midpoint (st : HeadPoseEstimation) (i : ℕ)
    (h : i < st.shapes.length) :
    ∃ args mt mb, pnpInput st i = .ok args ∧
      coordsOf st i .MOUTH_CENTER_TOP = .ok mt ∧
      coordsOf st i .MOUTH_CENTER_BOTTOM = .ok mb ∧
      args.imagePoints.get? 7 = some ((mt + mb) * (1 / 2 : ℚ)) ∧
      (mt ≠ mb → (mt + mb) * (1 / 2 : ℚ) ≠ mt ∧ (mt + mb) * (1 / 2 : ℚ) ≠ mb) := by
  obtain ⟨s, hs⟩ := shapes_get?_of_lt h
  refine ⟨_, _, _, pnpInput_ok hs, coordsOf_ok hs _, coordsOf_ok hs _, rfl, ?_⟩
  intro hne
  constructor <;> intro he <;> apply hne <;>
    · have hx := congrArg Point2.x he
      have hy := congrArg Point2.y he
      simp at hx hy
      ext <;> linarith

/-- C2 witness: the midpoint theorem applied at a concrete state; the
concrete shape has distinct mouth-center landmarks. -/
theorem stomion_is_mouth_midpoint_witness :
    ∃ args mt mb, pnpInput st1 0 = .ok args ∧
      coordsOf st1 0 .MOUTH_CENTER_TOP = .ok mt ∧
      coordsOf st1 0 .MOUTH_CENTER_BOTTOM = .ok mb ∧
      args.imagePoints.get? 7 = some ((mt + mb) * (1 / 2 : ℚ)) ∧
      (mt ≠ mb → (mt + mb) * (1 / 2 : ℚ) ≠ mt ∧ (mt + mb) * (1 / 2 : ℚ) ≠ mb) :=
  stomion_is_mouth_midpoint st1 0 (by decide)

/-- C3: every call of `pose` seeds the iterative PnP solve with the fixed
initial guess — translation `(0, 0, 1000)` millimeters and rotation vector
`(1.2, 1.2, -1.2)` (the literals `1.2` read as the exact rational `6/5`) —
with `useExtrinsicGuess = true`.  The statement quantifies over every
state, so the seed never depends on a previous frame's or call's solution:
`pose` is a `const` member function that rebuilds the two vectors from
literals on each call. -/
theorem pnp_initial_guess_fixed (st : HeadPoseEstimation) (i : ℕ)
    (h : i < st.shapes.length) :
    ∃ args, pnpInput st i = .ok args ∧
      args.rvec0 = ⟨6 / 5, 6 / 5, -(6 / 5)⟩ ∧
      args.tvec0 = ⟨0, 0, 1000⟩ ∧
      args.useExtrinsicGuess = true := by
  obtain ⟨s, hs⟩ := shapes_get?_of_lt h
  exact ⟨_, pnpInput_ok hs, rfl, rfl, rfl⟩

/-- C3 witness: the fixed-seed theorem applied at a concrete state. -/
theorem pnp_initial_guess_fixed_witness :
    ∃ args, pnpInput st1 0 = .ok args ∧
      args.rvec0 = ⟨6 / 5, 6 / 5, -(6 / 5)⟩ ∧
      args.tvec0 = ⟨0, 0, 1000⟩ ∧
      args.useExtrinsicGuess = true :=
  pnp_initial_guess_fixed st1 0 (by decide)

/-- C4: the optical center starts at the `-1` sentinel, is set by the first
`update` call to `(image.cols / 2, image.rows / 2)` (C++ integer division),
is left untouched by `update` whenever it is already set, and keeps its
first-frame value across a second `update` with an arbitrary (differently
sized) image. -/
theorem optical_center_set_once :
    (∀ f : ℚ, (initState f).opticalCenterX = -1 ∧ (initState f).opticalCenterY = -1) ∧
    (∀ (det : Image → List Rect) (pm : Image → Rect → Shape) (f : ℚ) (img : Image),
      (update det pm (initState f) img).1.opticalCenterX = ((img.cols / 2 : ℕ) : ℚ) ∧
      (update det pm (initState f) img).1.opticalCenterY = ((img.rows / 2 : ℕ) : ℚ)) ∧
    (∀ (det : Image → List Rect) (pm : Image → Rect → Shape)
      (st : HeadPoseEstimation) (img : Image), st.opticalCenterX ≠ -1 →
      (update det pm st img).1.opticalCenterX = st.opticalCenterX ∧
      (update det pm st img).1.opticalCenterY = st.opticalCenterY) ∧
    (∀ (det pm det2 pm2) (f : ℚ) (img img2 : Image),
      (update det2 pm2 (update det pm (initState f) img).1 img2).1.opticalCenterX =
        (update det pm (initState f) img).1.opticalCenterX ∧
      (update det2 pm2 (update det pm (initState f) img).1 img2).1.opticalCenterY =
        (update det pm (initState f) img).1.opticalCenterY) := by
  have hset : ∀ (det : Image → List Rect) (pm : Image → Rect → Shape)
      (st : HeadPoseEstimation) (img : Image), st.opticalCenterX ≠ -1 →
      (update det pm st img).1.opticalCenterX = st.opticalCenterX ∧
      (update det pm st img).1.opticalCenterY = st.opticalCenterY := by
    intro det pm st img hne
    simp [update, hne]
  refine ⟨fun f => ⟨rfl, rfl⟩, fun det pm f img => ?_, hset, ?_⟩
  · simp [update, initState]
  · intro det pm det2 pm2 f img img2
    apply hset
    have h1 : (update det pm (initState f) img).1.opticalCenterX =
        ((img.cols / 2 : ℕ) : ℚ) := by
      simp [update, initState]
    rw [h1]
    intro hc
    have hnn : (0 : ℚ) ≤ ((img.cols / 2 : ℕ) : ℚ) := Nat.cast_nonneg _
    rw [hc] at hnn
    norm_num at hnn

/-- C4 witness: `update` on a state whose optical center is already set
leaves it unchanged. -/
theorem optical_center_set_once_witness :
    (update det0 pm0 st1 img0).1.opticalCenterX = st1.opticalCenterX ∧
    (update det0 pm0 st1 img0).1.opticalCenterY = st1.opticalCenterY :=
  optical_center_set_once.2.2.1 det0 pm0 st1 img0 (by decide)

/-- C5: `poses()` is the list obtained by applying `pose(i)` to every
currently stored face index `i` in detection order; and when the detector
reports zero faces, `update` returns an empty landmark list and `poses()`
on the resulting state is empty. -/
theorem poses_maps_pose_over_faces (pr : Prims)
    (det : Image → List Rect) (pm : Image → Rect → Shape)
    (st : HeadPoseEstimation) (img : Image) :
    poses st pr = (List.range st.faces.length).map (fun i => pose st i pr) ∧
    (det img = [] →
      (update det pm st img).2 = [] ∧ poses (update det pm st img).1 pr = []) := by
  refine ⟨rfl, fun h => ⟨?_, ?_⟩⟩
  · simp [update, h]
  · simp [poses, update, h]

/-- C5 witness: the theorem applied with a concrete detector that reports
no face. -/
theorem poses_maps_pose_over_faces_witness :
    (update det0 pm0 st1 img0).2 = [] ∧
    poses (update det0 pm0 st1 img0).1 prims0 = [] :=
  (poses_maps_pose_over_faces prims0 det0 pm0 st1 img0).2 rfl

/-- C6 counterexample: with no stored face, `pose 0` reaches the unchecked
`shapes[face_idx]` vector access — undefined behavior, marked
`outOfBoundsUB` — and that outcome is not the distinctly signalled index
error the claim asserts; the source performs no bounds check and
`ErrKind.indexError` is never produced. -/
theorem pose_no_index_error_counterexample :
    pose emptySt 0 prims0 = .error .outOfBoundsUB ∧
    ErrKind.outOfBoundsUB ≠ ErrKind.indexError :=
  ⟨rfl, by decide⟩

/-- C6 (amended): for every face index at or beyond the number of stored
faces, `pose(face_index)` performs an unchecked out-of-bounds access on the
stored shape vector (undefined behavior in C++); it does not signal a
distinct index error. -/
theorem pose_out_of_range_unchecked (st : HeadPoseEstimation) (pr : Prims)
    (i : ℕ) (h : st.shapes.length ≤ i) :
    pose st i pr = .error .outOfBoundsUB := by
  have hs : st.shapes.get? i = none := List.get?_eq_none.mpr h
  simp [pose, pnpInput_err hs, Bind.bind, Except.bind]

/-- C6 witness: the amended theorem applied at a concrete out-of-range
index. -/
theorem pose_out_of_range_unchecked_witness :
    pose emptySt 5 prims0 = .error .outOfBoundsUB :=
  pose_out_of_range_unchecked emptySt prims0 5 (by decide)

/-- The epsilon bound is at most 1 (used by the C7 witness to discharge
the non-parallel hypothesis via `simp`). -/
theorem eps_le_one : ((100000000 : ℚ))⁻¹ ≤ 1 := by norm_num

/-- C7: the intersection helper returns the no-intersection outcome (return
value `false`) exactly when the magnitude of the cross product of the two
direction vectors is below the fixed epsilon `1e-8`; otherwise it returns
the point `r = o1 + d1*t1` with `t1 = (x.x*d2.y - x.y*d2.x)/cross`, and
that point lies on both lines (each line taken as the parametric set
`o + d*s`). -/
theorem intersection_cross_epsilon (o1 p1 o2 p2 r0 : Point2) :
    ((intersection o1 p1 o2 p2 r0).1 = false ↔
      |(p1 - o1).x * (p2 - o2).y - (p1 - o1).y * (p2 - o2).x| < 1 / 100000000) ∧
    (¬ |(p1 - o1).x * (p2 - o2).y - (p1 - o1).y * (p2 - o2).x| < 1 / 100000000 →
      (intersection o1 p1 o2 p2 r0).2 = o1 + (p1 - o1) *
        (((o2 - o1).x * (p2 - o2).y - (o2 - o1).y * (p2 - o2).x) /
          ((p1 - o1).x * (p2 - o2).y - (p1 - o1).y * (p2 - o2).x)) ∧
      (∃ s : ℚ, (intersection o1 p1 o2 p2 r0).2 = o1 + (p1 - o1) * s) ∧
      (∃ s : ℚ, (intersection o1 p1 o2 p2 r0).2 = o2 + (p2 - o2) * s)) := by
  by_cases hc : |(p1 - o1).x * (p2 - o2).y - (p1 - o1).y * (p2 - o2).x| <
      1 / 100000000
  · have hval : intersection o1 p1 o2 p2 r0 = (false, r0) := by
      simp only [intersection]
      rw [if_pos hc]
    refine ⟨?_, fun hn => absurd hc hn⟩
    rw [hval]
    simpa using hc
  · have hcross : (p1 - o1).x * (p2 - o2).y - (p1 - o1).y * (p2 - o2).x ≠ 0 := by
      intro h0
      apply hc
      rw [h0]
      norm_num
    have hval : intersection o1 p1 o2 p2 r0 = (true, o1 + (p1 - o1) *
        (((o2 - o1).x * (p2 - o2).y - (o2 - o1).y * (p2 - o2).x) /
          ((p1 - o1).x * (p2 - o2).y - (p1 - o1).y * (p2 - o2).x))) := by
      simp only [intersection]
      rw [if_neg hc]
    refine ⟨by rw [hval]; simpa using hc, fun _ => ?_⟩
    rw [hval]
    refine ⟨rfl, ⟨_, rfl⟩,
      ⟨((o2 - o1).x * (p1 - o1).y - (o2 - o1).y * (p1 - o1).x) /
        ((p1 - o1).x * (p2 - o2).y - (p1 - o1).y * (p2 - o2).x), ?_⟩⟩
    have hcr : (p1.x - o1.x) * (p2.y - o2.y) - (p1.y - o1.y) * (p2.x - o2.x) ≠ 0 := by
      simpa using hcross
    ext
    · simp only [Point2.add_x, Point2.smul_x, Point2.sub_x, Point2.sub_y]
      field_simp
      ring
    · simp only [Point2.add_y, Point2.smul_y, Point2.sub_x, Point2.sub_y]
      field_simp
      ring

/-- C7 witness: two concrete non-parallel lines (the x-axis and the y-axis)
with the epsilon test failing; the computed point lies on both lines. -/
theorem intersection_cross_epsilon_witness :
    ¬ |(((⟨1, 0⟩ : Point2) - ⟨0, 0⟩).x * (((⟨0, 1⟩ : Point2) - ⟨0, 0⟩)).y -
        ((⟨1, 0⟩ : Point2) - ⟨0, 0⟩).y * (((⟨0, 1⟩ : Point2) - ⟨0, 0⟩)).x)| <
      1 / 100000000 ∧
    ((∃ s : ℚ, (intersection ⟨0, 0⟩ ⟨1, 0⟩ ⟨0, 0⟩ ⟨0, 1⟩ ⟨5, 7⟩).2 =
        (⟨0, 0⟩ : Point2) + ((⟨1, 0⟩ : Point2) - ⟨0, 0⟩) * s) ∧
     (∃ s : ℚ, (intersection ⟨0, 0⟩ ⟨1, 0⟩ ⟨0, 0⟩ ⟨0, 1⟩ ⟨5, 7⟩).2 =
        (⟨0, 0⟩ : Point2) + ((⟨0, 1⟩ : Point2) - ⟨0, 0⟩) * s)) :=
  ⟨by simp [eps_le_one],
    ((intersection_cross_epsilon ⟨0, 0⟩ ⟨1, 0⟩ ⟨0, 0⟩ ⟨0, 1⟩ ⟨5, 7⟩).2
      (by simp [eps_le_one])).2⟩

/-- C10: when the parallel-lines test fires (|cross| < 1e-8), the function
returns `false` and the output parameter `r` keeps its prior value: the
result point is written only on the success path. -/
theorem intersection_parallel_leaves_r (o1 p1 o2 p2 r0 : Point2)
    (h : |(p1 - o1).x * (p2 - o2).y - (p1 - o1).y * (p2 - o2).x| < 1 / 100000000) :
    intersection o1 p1 o2 p2 r0 = (false, r0) := by
  simp only [intersection]
  rw [if_pos h]

/-- C10 witness: two concrete parallel horizontal lines with a concrete
prior value of `r`, which survives unchanged. -/
theorem intersection_parallel_leaves_r_witness :
    intersection ⟨0, 0⟩ ⟨1, 0⟩ ⟨0, 1⟩ ⟨1, 1⟩ ⟨5, 7⟩ = (false, ⟨5, 7⟩) :=
  intersection_parallel_leaves_r ⟨0, 0⟩ ⟨1, 0⟩ ⟨0, 1⟩ ⟨1, 1⟩ ⟨5, 7⟩ (by simp)

/-! ### Renderer lemmas -/

theorem featureSegments_bound : ∀ sg ∈ featureSegments, sg.1 < 68 ∧ sg.2 < 68 := by
  decide

theorem getPt_ok {l : List (ℤ × ℤ)} {n : ℕ} (h : n < l.length) :
    ∃ p, getPt l n = .ok p := by
  unfold getPt
  rw [List.get?_eq_get h]
  exact ⟨_, rfl⟩

theorem faceSegOps_ok (f : List (ℤ × ℤ)) :
    ∀ segs : List (ℕ × ℕ), (∀ sg ∈ segs, sg.1 < f.length ∧ sg.2 < f.length) →
      ∃ ops, faceSegOps f segs = .ok ops := by
  intro segs
  induction segs with
  | nil => exact fun _ => ⟨[], rfl⟩
  | cons sg rest ih =>
    intro h
    obtain ⟨pa, hpa⟩ := getPt_ok (h sg (List.mem_cons_self _ _)).1
    obtain ⟨pb, hpb⟩ := getPt_ok (h sg (List.mem_cons_self _ _)).2
    obtain ⟨ops, hops⟩ := ih fun s hs => h s (List.mem_cons_of_mem _ hs)
    refine ⟨DrawOp.line ⟨(pa.1 : ℚ), (pa.2 : ℚ)⟩ ⟨(pb.1 : ℚ), (pb.2 : ℚ)⟩
      lineColor 2 :: ops, ?_⟩
    simp [faceSegOps, hpa, hpb, hops, Bind.bind, Except.bind, pure, Except.pure]

theorem drawFaceOps_ok {f : List (ℤ × ℤ)} (h : 68 ≤ f.length) :
    ∃ ops, drawFaceOps f = .ok ops :=
  faceSegOps_ok f featureSegments fun sg hsg =>
    ⟨lt_of_lt_of_le (featureSegments_bound sg hsg).1 h,
     lt_of_lt_of_le (featureSegments_bound sg hsg).2 h⟩

theorem drawFeatures_ok :
    ∀ (feats : List (List (ℤ × ℤ))) (m : Mat), (∀ f ∈ feats, 68 ≤ f.length) →
      ∃ extra, drawFeatures feats m = .ok ⟨m.content, m.ops ++ extra⟩ := by
  intro feats
  induction feats with
  | nil =>
    intro m _
    exact ⟨[], by simp [drawFeatures, pure, Except.pure]⟩
  | cons f rest ih =>
    intro m hwf
    obtain ⟨ops, hops⟩ := drawFaceOps_ok (hwf f (List.mem_cons_self _ _))
    obtain ⟨extra, he⟩ := ih ⟨m.content, m.ops ++ ops⟩
      fun g hg => hwf g (List.mem_cons_of_mem _ hg)
    refine ⟨ops ++ extra, ?_⟩
    simp only [drawFeatures, List.foldlM_cons] at he ⊢
    simpa [hops, Bind.bind, Except.bind, pure, Except.pure, List.append_assoc]
      using he

theorem drawPose_ok {st : HeadPoseEstimation} {pr : Prims} {p : Mat4} {i : ℕ}
    {m : Mat} {s : Shape} (hs : st.shapes.get? i = some s) :
    drawPose st pr p i m =
      .ok ⟨m.content, m.ops ++ axisTextOps st pr p (landmark s .SELLION)⟩ := by
  simp [drawPose, coordsOf_ok hs, Bind.bind, Except.bind, pure, Except.pure]

theorem drawPose_err {st : HeadPoseEstimation} {pr : Prims} {p : Mat4} {i : ℕ}
    {m : Mat} (h : st.shapes.length ≤ i) :
    drawPose st pr p i m = .error .outOfBoundsUB := by
  have hs : st.shapes.get? i = none := List.get?_eq_none.mpr h
  simp [drawPose, coordsOf_err hs, Bind.bind, Except.bind]

theorem enumFrom_fst_lt {α : Type} :
    ∀ (l : List α) (k : ℕ) (ip : ℕ × α), ip ∈ l.enumFrom k → ip.1 < k + l.length := by
  intro l
  induction l with
  | nil =>
    intro k ip h
    simp at h
  | cons a rest ih =>
    intro k ip h
    rw [List.enumFrom_cons] at h
    rcases List.mem_cons.mp h with h1 | h2
    · subst h1
      simp only [List.length_cons]
      omega
    · have := ih (k + 1) ip h2
      simp only [List.length_cons]
      omega

theorem drawPoses_ok_of_lt (st : HeadPoseEstimation) (pr : Prims) :
    ∀ (ps : List (ℕ × Mat4)) (m : Mat),
      (∀ ip ∈ ps, ip.1 < st.shapes.length) →
      ∃ extra, drawPoses st pr ps m = .ok ⟨m.content, m.ops ++ extra⟩ := by
  intro ps
  induction ps with
  | nil =>
    intro m _
    exact ⟨[], by simp [drawPoses, pure, Except.pure]⟩
  | cons q rest ih =>
    intro m hall
    obtain ⟨s, hs⟩ := shapes_get?_of_lt (hall q (List.mem_cons_self _ _))
    obtain ⟨extra, he⟩ :=
      ih ⟨m.content, m.ops ++ axisTextOps st pr q.2 (landmark s .SELLION)⟩
        fun ip hip => hall ip (List.mem_cons_of_mem _ hip)
    refine ⟨axisTextOps st pr q.2 (landmark s .SELLION) ++ extra, ?_⟩
    simp only [drawPoses, List.foldlM_cons] at he ⊢
    rw [drawPose_ok hs]
    simpa [Bind.bind, Except.bind, List.append_assoc] using he

theorem drawPoses_enumFrom_err (st : HeadPoseEstimation) (pr : Prims) :
    ∀ (l : List Mat4) (k : ℕ) (m : Mat),
      st.shapes.length < k + l.length → l ≠ [] →
      drawPoses st pr (l.enumFrom k) m = .error .outOfBoundsUB := by
  intro l
  induction l with
  | nil =>
    intro k m _ hne
    exact absurd rfl hne
  | cons p rest ih =>
    intro k m hlt _
    rw [List.enumFrom_cons]
    by_cases hk : k < st.shapes.length
    · obtain ⟨s, hs⟩ := shapes_get?_of_lt hk
      have hrest : rest ≠ [] := by
        intro h0
        subst h0
        simp only [List.length_cons, List.length_nil] at hlt
        omega
      simp only [drawPoses, List.foldlM_cons]
      rw [drawPose_ok hs]
      have hrec := ih (k + 1)
        ⟨m.content, m.ops ++ axisTextOps st pr p (landmark s .SELLION)⟩
        (by simp only [List.length_cons] at hlt; omega) hrest
      simp only [drawPoses] at hrec
      simpa [Bind.bind, Except.bind] using hrec
    · simp only [drawPoses, List.foldlM_cons]
      rw [drawPose_err (Nat.le_of_not_lt hk)]
      simp [Bind.bind, Except.bind]

/-- `drawDetections` on well-formed feature lists and an in-range pose list
succeeds: the annotations are appended to a copy carrying the base image's
content (shared by the C8 and C9 claim proofs). -/
theorem drawDetections_aux (st : HeadPoseEstimation) (pr : Prims) (img : Mat)
    (feats : List (List (ℤ × ℤ))) (ps : List Mat4)
    (hwf : ∀ f ∈ feats, 68 ≤ f.length) (hlen : ps.length ≤ st.shapes.length) :
    ∃ extra, drawDetections st pr img feats ps = .ok ⟨img.content, img.ops ++ extra⟩ := by
  have hen : ∀ ip ∈ ps.enum, ip.1 < st.shapes.length := by
    intro ip hip
    have := enumFrom_fst_lt ps 0 ip (by simpa [List.enum] using hip)
    omega
  by_cases hfe : feats.isEmpty
  · obtain ⟨extra, he⟩ := drawPoses_ok_of_lt st pr ps.enum img hen
    refine ⟨extra, ?_⟩
    simp [drawDetections, hfe, Mat.clone, Bind.bind, Except.bind, pure,
      Except.pure, he]
  · obtain ⟨e1, h1⟩ := drawFeatures_ok feats img hwf
    obtain ⟨e2, h2⟩ := drawPoses_ok_of_lt st pr ps.enum ⟨img.content, img.ops ++ e1⟩ hen
    refine ⟨e1 ++ e2, ?_⟩
    simp [drawDetections, hfe, Mat.clone, Bind.bind, Except.bind, h1, h2,
      List.append_assoc]

/-- C8: `drawDetections(baseImage, landmarkSets, poses)` does not mutate its
inputs: every `cv::Mat&` mutation in the embedding is explicit state
passing, and the only drawing target ever threaded through `drawFeatures` /
`drawPose` is the fresh `clone` of the base image — the call returns that
newly created copy, carrying the base image's pixel content with the
annotations appended, while the argument values (base image, landmark
lists, pose matrices) are untouched.  Stated for well-formed arguments
(68-point feature lists, pose count within the stored face count; the
ill-formed case is C9's subject). -/
theorem drawDetections_pure_copy (st : HeadPoseEstimation) (pr : Prims) (img : Mat)
    (feats : List (List (ℤ × ℤ))) (ps : List Mat4)
    (hwf : ∀ f ∈ feats, 68 ≤ f.length) (hlen : ps.length ≤ st.shapes.length) :
    ∃ extra, drawDetections st pr img feats ps = .ok ⟨img.content, img.ops ++ extra⟩ :=
  drawDetections_aux st pr img feats ps hwf hlen

/-- C8 witness: the theorem applied at a concrete image and a concrete
(empty) feature/pose pair. -/
theorem drawDetections_pure_copy_witness :
    ∃ extra, drawDetections st1 prims0 mat0 [] [] =
      .ok ⟨mat0.content, mat0.ops ++ extra⟩ :=
  drawDetections_pure_copy st1 prims0 mat0 [] [] (by simp) (by decide)

/-- C9: the position of the translation text label for face `i` is read
from the estimator's internally stored landmark state — `drawPose` has no
landmark-list parameter at all, and the emitted text operation sits at the
sellion of stored shape `i` (`coordsOf`, i.e. `st.shapes.get? i`) — and
consequently (for well-formed feature lists) `drawDetections` is
well-defined exactly when the pose count is at most the stored face count;
beyond it the label lookup indexes the stored shape collection out of
bounds. -/
theorem drawPose_label_from_stored_state (st : HeadPoseEstimation) (pr : Prims)
    (img : Mat) (feats : List (List (ℤ × ℤ))) (ps : List Mat4)
    (hwf : ∀ f ∈ feats, 68 ≤ f.length) :
    (∀ (p : Mat4) (i : ℕ) (m r : Mat), drawPose st pr p i m = .ok r →
      ∃ s, st.shapes.get? i = some s ∧
        r.ops = m.ops ++ axisTextOps st pr p (landmark s .SELLION)) ∧
    ((∃ r, drawDetections st pr img feats ps = .ok r) ↔
      ps.length ≤ st.shapes.length) := by
  constructor
  · intro p i m r hok
    cases hs : st.shapes.get? i with
    | none =>
      rw [drawPose_err (List.get?_eq_none.mp hs)] at hok
      simp at hok
    | some s =>
      rw [drawPose_ok hs] at hok
      injection hok with h
      exact ⟨s, rfl, by rw [← h]⟩
  · constructor
    · rintro ⟨r, hr⟩
      by_contra hgt
      push_neg at hgt
      have hne : ps ≠ [] := by
        intro h0
        subst h0
        simp at hgt
      have hlt : st.shapes.length < 0 + ps.length := by omega
      by_cases hfe : feats.isEmpty
      · have herr := drawPoses_enumFrom_err st pr ps 0 img.clone hlt hne
        simp only [drawDetections, hfe, if_true, Bind.bind, Except.bind, pure,
          Except.pure, List.enum] at hr
        rw [herr] at hr
        simp at hr
      · obtain ⟨e1, h1⟩ := drawFeatures_ok feats img.clone hwf
        have herr := drawPoses_enumFrom_err st pr ps 0
          ⟨img.clone.content, img.clone.ops ++ e1⟩ hlt hne
        simp only [drawDetections, hfe, if_false, Bind.bind, Except.bind, pure,
          Except.pure, List.enum, h1] at hr
        rw [herr] at hr
        simp at hr
    · intro hlen
      obtain ⟨extra, he⟩ := drawDetections_aux st pr img feats ps hwf hlen
      exact ⟨_, he⟩

/-- C9 witness: the theorem applied at a concrete state with one stored
face, an empty feature list, and a single pose. -/
theorem drawPose_label_from_stored_state_witness :
    (∃ r, drawDetections st1 prims0 mat0 [] [m4one] = .ok r) ↔
      [m4one].length ≤ st1.shapes.length :=
  (drawPose_label_from_stored_state st1 prims0 mat0 [] [m4one] (by simp)).2

end Gazr
